import Mathlib

/-!
Verification of the WhiskyPay Solana payment SDK core against its
natural-language specification.

The development shallowly embeds the TypeScript sources:
- `fetchSession.ts` (session fetch and normalization),
- the session/verification gateway file (`createSession`, `verifyPayment`,
  `storeVerifiedSignature`),
- the payment orchestration component (`handlePayment`, native SOL path).

Network I/O, wall-clock time and the browser DOM are abstracted by explicit
oracles: a list of per-attempt round results models what the network returns,
boolean fields model the heuristic page-text scans, and rational jitter values
model `Math.random()` draws. Machine floating point is modelled by `Rat`
(`Math.round` becomes `round : Rat -> Int`, which likewise rounds half up).
-/

set_option autoImplicit false

namespace WhiskyPay

/-- A JSON-like primitive value as relevant to session mapping.
Absent object keys are modelled by `Option.none` at the lookup level. -/
inductive JVal where
  | jnull : JVal
  | jstr : String → JVal
  | jnum : Rat → JVal
  | jbool : Bool → JVal
deriving DecidableEq, Repr

/-- JavaScript truthiness of a `JVal`. -/
def JVal.truthy : JVal → Bool
  | .jnull => false
  | .jstr s => s ≠ ""
  | .jnum q => q ≠ 0
  | .jbool b => b

/-- A JSON object, as an association list from keys to values. -/
abbrev JObj := List (String × JVal)

/-- Property access `data.key`: `none` models JavaScript `undefined`. -/
def jget (data : JObj) (key : String) : Option JVal :=
  (data.find? (fun p => p.1 = key)).map Prod.snd

/-- Truthiness of an accessed property (`undefined` is falsy). -/
def jtruthy : Option JVal → Bool
  | none => false
  | some v => v.truthy

/-- The `a || b || ... || null` alias chain from `mapResponseToSessionType`:
the first truthy value among the keys, else `none` (JavaScript `null`). -/
def orChain (data : JObj) : List String → Option JVal
  | [] => none
  | k :: ks => if jtruthy (jget data k) then jget data k else orChain data ks

/-- `typeof data.k === 'number' ? data.k : ...` chain for the price aliases:
the first key bound to a number, else `none`. -/
def numChain (data : JObj) : List String → Option Rat
  | [] => none
  | k :: ks =>
    match jget data k with
    | some (.jnum q) => some q
    | _ => numChain data ks

def idKeys : List String := ["_id", "id", "sessionId", "session_id"]
def saasIdKeys : List String := ["saasId", "saas_id", "merchantId", "merchant_id"]
def saasNameKeys : List String := ["saasName", "saas_name", "merchantName", "merchant_name"]
def timeKeys : List String := ["time", "created_at", "createdAt", "timestamp"]
def emailKeys : List String := ["email", "customerEmail", "customer_email"]
def addressKeys : List String :=
  ["address", "walletAddress", "wallet_address", "merchantAddress", "merchant_address"]
def logoKeys : List String := ["logoUrl", "logo_url", "logo"]
def planKeys : List String := ["plan", "planName", "plan_name"]
def priceKeys : List String := ["price", "amount", "planPrice", "plan_price"]

/-- The normalized session model (`SessionType` in `fetchSession.ts`).
`sid` embeds the source field `_id`. -/
structure SessionType where
  sid : JVal
  saasId : JVal
  saasName : JVal
  time : JVal
  email : JVal
  address : JVal
  logoUrl : JVal
  plan : JVal
  price : Rat
deriving DecidableEq, Repr

/-- `mapResponseToSessionType` from `fetchSession.ts`: resolves each field
through its alias chain, fails (returns `none`) when any of the six mandatory
fields is missing after alias resolution or the price is not a positive
number, and defaults only `saasName`, `logoUrl` and `time` (the latter to the
current ISO timestamp, passed here as `nowIso`). -/
def mapResponseToSessionType (nowIso : String) (data : Option JObj) : Option SessionType :=
  match data with
  | none => none
  | some d =>
    match orChain d idKeys, orChain d saasIdKeys, orChain d emailKeys,
          orChain d addressKeys, orChain d planKeys, numChain d priceKeys with
    | some sidV, some saasIdV, some emailV, some addressV, some planV, some priceV =>
      if priceV ≤ 0 then none
      else some {
        sid := sidV
        saasId := saasIdV
        saasName := (orChain d saasNameKeys).getD (JVal.jstr "Merchant")
        time := (orChain d timeKeys).getD (JVal.jstr nowIso)
        email := emailV
        address := addressV
        logoUrl := (orChain d logoKeys).getD (JVal.jstr "")
        plan := planV
        price := priceV }
    | _, _, _, _, _, _ => none

/-- The character class `[a-zA-Z0-9-_]` accepted by the `fetchSession`
session-id sanitizer. -/
def allowedIdChar (c : Char) : Bool :=
  (('a' ≤ c && c ≤ 'z') || ('A' ≤ c && c ≤ 'Z') || ('0' ≤ c && c ≤ '9')
    || c = '-' || c = '_')

/-- One network round of the `fetchSession` retry loop. A `response` carries
the status obtained after the in-round endpoint fallback and the parsed body
(`none` when the body fails to parse or is empty); `netFail` models a timeout
or transport error reaching the outer catch. -/
inductive FetchRound where
  | response (status : Nat) (body : Option JObj)
  | netFail
deriving Repr

structure FetchResult where
  session : Option SessionType
  requests : Nat
deriving DecidableEq, Repr

/-- The `while (attempts < maxRetries)` loop of `fetchSession`. The first
argument is the remaining attempt budget `maxRetries - attempts`; each
iteration consumes one oracle round and counts one network request. Backoff
delays do not influence the result and are not tracked here. -/
def fetchLoop (nowIso : String) : Nat → List FetchRound → Nat → FetchResult
  | 0, _, requests => ⟨none, requests⟩
  | _ + 1, [], requests => ⟨none, requests⟩
  | r + 1, round :: rest, requests =>
    match round with
    | .response status body =>
      if 200 ≤ status ∧ status < 300 then
        match body with
        | none => ⟨none, requests + 1⟩
        | some d =>
          match mapResponseToSessionType nowIso (some d) with
          | none => ⟨none, requests + 1⟩
          | some s => ⟨some s, requests + 1⟩
      else
        if status = 404 then ⟨none, requests + 1⟩
        else if 500 ≤ status ∨ status = 429 then
          if 0 < r then fetchLoop nowIso r rest (requests + 1)
          else ⟨none, requests + 1⟩
        else ⟨none, requests + 1⟩
    | .netFail =>
      if 0 < r then fetchLoop nowIso r rest (requests + 1)
      else ⟨none, requests + 1⟩

/-- `fetchSession` from `fetchSession.ts`: rejects an empty id, then rejects
any id changed by stripping characters outside `[a-zA-Z0-9-_]` (without any
network request), then runs the retry loop against the network oracle. -/
def fetchSession (sessionId : String) (nowIso : String) (rounds : List FetchRound)
    (maxRetries : Nat) : FetchResult :=
  if sessionId = "" then ⟨none, 0⟩
  else
    let sanitized := String.mk (sessionId.data.filter allowedIdChar)
    if sanitized ≠ sessionId then ⟨none, 0⟩
    else fetchLoop nowIso maxRetries rounds 0

/-- JavaScript `String.prototype.trim`: strips whitespace from both ends
(structurally, so that concrete runs evaluate inside the kernel). -/
def jsTrim (s : String) : String :=
  String.mk (((s.data.dropWhile Char.isWhitespace).reverse.dropWhile Char.isWhitespace).reverse)

/-- `storeVerifiedSignature` from the verification gateway: appends the
signature to the session-scoped verified-signature list unless it is already
present. -/
def storeVerifiedSignature (storage : List String) (signature : String) : List String :=
  if signature ∈ storage then storage else storage ++ [signature]

/-- One network round of the `verifyPayment` retry loop. `primaryThrew`
records that the fetch against the primary endpoint raised, which makes the
in-round Redis page-text check run before the fallback endpoint is tried.
For `response`, `status` is the status obtained after any endpoint fallback,
`parses` tells whether the body parses as JSON, and `msg` is the effective
`message` field of the (parsed or substituted) error body, `none` when the
parsed body carries no truthy message. `timeout` is an abort reaching the
outer catch; `transportError` is any other exception reaching it. -/
inductive VRound where
  | response (primaryThrew : Bool) (status : Nat) (parses : Bool) (msg : Option String)
  | timeout (primaryThrew : Bool)
  | transportError (primaryThrew : Bool)
deriving DecidableEq, Repr

/-- The environment of one `verifyPayment` call: the three page-text marker
scans (initial success markers, Redis reconnection markers, and the
exhausted-failure marker set) and the oracle of network rounds. -/
structure VerifyOracle where
  heurInitial : Bool
  heurRedis : Bool
  heurFailure : Bool
  rounds : List VRound
deriving Repr

structure VerifyResult where
  success : Bool
  message : String
  storage : List String
  requests : Nat
deriving DecidableEq, Repr

/-- The `while (attempts < maxRetries)` loop of `verifyPayment`. The `Nat`
argument is the remaining attempt budget `maxRetries - attempts`; each
iteration consumes one oracle round. `sig` is the trimmed signature. -/
def verifyLoop (hr hf : Bool) (sig : String) (st : List String) :
    Nat → List VRound → Nat → VerifyResult
  | 0, _, requests =>
    ⟨false,
     "Failed to verify payment after multiple attempts. The payment may still have been processed. Check your account dashboard.",
     st, requests⟩
  | _ + 1, [], requests =>
    ⟨false,
     "Failed to verify payment after multiple attempts. The payment may still have been processed. Check your account dashboard.",
     st, requests⟩
  | r + 1, round :: rest, requests =>
    match round with
    | .response pt status parses msg =>
      if pt && hr then
        ⟨true, "Payment appears to be processed successfully",
         storeVerifiedSignature st sig, requests + 1⟩
      else if status = 409 then
        ⟨true, "Payment already verified", storeVerifiedSignature st sig, requests + 1⟩
      else if 200 ≤ status ∧ status < 300 then
        if parses then
          ⟨true, msg.getD "Payment verified successfully",
           storeVerifiedSignature st sig, requests + 1⟩
        else
          ⟨true, "Payment verified successfully", storeVerifiedSignature st sig, requests + 1⟩
      else if status = 400 then
        ⟨false, msg.getD "Invalid request parameters", st, requests + 1⟩
      else if status = 404 then
        ⟨false, msg.getD "Session not found", st, requests + 1⟩
      else if (500 ≤ status ∨ status = 429) ∧ 0 < r then
        verifyLoop hr hf sig st r rest (requests + 1)
      else if hf then
        ⟨true, "Payment appears to be processed successfully",
         storeVerifiedSignature st sig, requests + 1⟩
      else
        ⟨false, msg.getD "Payment verification failed", st, requests + 1⟩
    | .timeout pt =>
      if pt && hr then
        ⟨true, "Payment appears to be processed successfully",
         storeVerifiedSignature st sig, requests + 1⟩
      else if 0 < r then verifyLoop hr hf sig st r rest (requests + 1)
      else
        ⟨true, "Payment may have been processed. Please check your account dashboard to verify.",
         st, requests + 1⟩
    | .transportError pt =>
      if pt && hr then
        ⟨true, "Payment appears to be processed successfully",
         storeVerifiedSignature st sig, requests + 1⟩
      else if hr then
        ⟨true, "Payment appears to be processed successfully",
         storeVerifiedSignature st sig, requests + 1⟩
      else if 0 < r then verifyLoop hr hf sig st r rest (requests + 1)
      else ⟨false, "Error verifying payment", st, requests + 1⟩

/-- `verifyPayment` from the verification gateway: validates the inputs,
short-circuits on a signature already recorded in the verified-signature
list, short-circuits on the initial page-text success-marker scan, and
otherwise runs the retry loop against the network oracle. The function makes
no ledger query anywhere (the on-chain status re-check lives in the caller,
`handlePayment`). -/
def verifyPayment (sessionId signature userPubKey : String) (storage : List String)
    (o : VerifyOracle) (maxRetries : Nat) : VerifyResult :=
  if sessionId = "" ∨ signature = "" ∨ userPubKey = "" then
    ⟨false, "Missing required fields", storage, 0⟩
  else
    let trimmedSignature := jsTrim signature
    if trimmedSignature ∈ storage then
      ⟨true, "Payment already verified", storage, 0⟩
    else if o.heurInitial then
      ⟨true, "Payment appears to be verified successfully",
       storeVerifiedSignature storage trimmedSignature, 0⟩
    else verifyLoop o.heurRedis o.heurFailure trimmedSignature storage maxRetries o.rounds 0

/-- Characters allowed in the local part of `validateEmail`'s pattern:
`[a-zA-Z0-9._%+-]`. -/
def isLocalChar (c : Char) : Bool :=
  c.isAlpha || c.isDigit || c = '.' || c = '_' || c = '%' || c = '+' || c = '-'

/-- Characters allowed in the domain part before the final dot:
`[a-zA-Z0-9.-]`. -/
def isDomainChar (c : Char) : Bool :=
  c.isAlpha || c.isDigit || c = '.' || c = '-'

/-- Split a character list at every occurrence of `sep` (like
`String.splitOn` for a single-character separator, but structurally
recursive so that concrete runs evaluate inside the kernel). -/
def splitOnChar (sep : Char) : List Char → List Char → List (List Char)
  | [], acc => [acc.reverse]
  | c :: cs, acc =>
    if c = sep then acc.reverse :: splitOnChar sep cs []
    else splitOnChar sep cs (c :: acc)

/-- `validateEmail` from the session gateway, implementing the pattern
`[a-zA-Z0-9._%+-]+@[a-zA-Z0-9.-]+[.][a-zA-Z]\x7b2,\x7d` anchored at both
ends. Neither character class admits the at-sign, so the pattern forces
exactly one; the top-level-domain segment is the part after the last dot,
since that segment admits no dot. -/
def validateEmail (email : String) : Bool :=
  match splitOnChar '@' email.data [] with
  | [lp, dom] =>
    !lp.isEmpty && lp.all isLocalChar &&
    (let parts := splitOnChar '.' dom []
     match parts.getLast? with
     | none => false
     | some tld =>
       decide (2 ≤ parts.length) && decide (2 ≤ tld.length) &&
       tld.all Char.isAlpha &&
       (let pre := List.intercalate ['.'] parts.dropLast
        !pre.isEmpty && pre.all isDomainChar))
  | _ => false

/-- One network round of the `createSession` retry loop. For `response`,
`status` is the status after any in-round endpoint fallback and `sessionId`
is the parsed body's truthy `sessionId` field (`none` when the body fails to
parse or the field is absent or falsy). `netFail` models a timeout or
transport error reaching the outer catch. -/
inductive CRound where
  | response (status : Nat) (sessionId : Option String)
  | netFail
deriving DecidableEq, Repr

structure CreateResult where
  sessionId : Option String
  requests : Nat
  delays : List Rat
deriving DecidableEq, Repr

/-- The backoff delay before retry number `attempt`:
`Math.min(1000 * Math.pow(2, attempts) + jitter, cap)` with the jitter a
`Math.random()` draw scaled by the call site. -/
def backoffDelay (attempt : Nat) (jitter cap : Rat) : Rat :=
  min (1000 * 2 ^ attempt + jitter) cap

/-- Pop the next `Math.random()` draw from the jitter oracle (0 if spent). -/
def takeJitter : List Rat → Rat × List Rat
  | [] => (0, [])
  | j :: js => (j, js)

/-- The `while (attempts < maxRetries)` loop of `createSession`. `a` is the
current `attempts` counter; each iteration consumes one oracle round, and
each retry records its backoff delay (cap 10000 ms at this call site). -/
def createLoop (maxRetries : Nat) : Nat → List CRound → List Rat → Nat → List Rat →
    CreateResult
  | _, [], _, requests, delays => ⟨none, requests, delays⟩
  | a, round :: rest, jitters, requests, delays =>
    if a < maxRetries then
      match round with
      | .response status sid =>
        if 200 ≤ status ∧ status < 300 then
          match sid with
          | none => ⟨none, requests + 1, delays⟩
          | some s => ⟨some s, requests + 1, delays⟩
        else if 500 ≤ status ∨ status = 429 then
          if a + 1 < maxRetries then
            createLoop maxRetries (a + 1) rest (takeJitter jitters).2 (requests + 1)
              (delays ++ [backoffDelay (a + 1) (takeJitter jitters).1 10000])
          else ⟨none, requests + 1, delays⟩
        else ⟨none, requests + 1, delays⟩
      | .netFail =>
        if a + 1 < maxRetries then
          createLoop maxRetries (a + 1) rest (takeJitter jitters).2 (requests + 1)
            (delays ++ [backoffDelay (a + 1) (takeJitter jitters).1 10000])
        else ⟨none, requests + 1, delays⟩
    else ⟨none, requests, delays⟩

/-- `createSession` from the session gateway: rejects an empty merchant id,
an address failing `validateEmail`, or an empty plan before any network
call, then runs the retry loop against the network and jitter oracles.
Input sanitization only rewrites the request body, which the network oracle
abstracts, so it does not appear here. -/
def createSession (saasId email plan : String) (rounds : List CRound)
    (jitters : List Rat) (maxRetries : Nat) : CreateResult :=
  if saasId = "" then ⟨none, 0, []⟩
  else if ¬ validateEmail email then ⟨none, 0, []⟩
  else if plan = "" then ⟨none, 0, []⟩
  else createLoop maxRetries 0 rounds jitters 0 []

/-- Ledger confirmation status of a signature, as reported by
`connection.getSignatureStatus`: `missing` models an absent or null value. -/
inductive LedgerStatus where
  | missing
  | processed
  | confirmed
  | finalized
deriving DecidableEq, Repr

inductive Outcome where
  | success
  | failure
deriving DecidableEq, Repr

/-- The orchestrator-level verification retry loop in `handlePayment`:
`while (retryCount < maxRetries && !verificationResponse?.success)` with
`maxRetries = 3` and a 2-second pause between attempts. Each attempt runs a
full `verifyPayment` call against its own oracle, threading the
verified-signature list through. Returns the final success flag and list. -/
def orchestratorVerify (sessionId sig pub : String) :
    List String → Nat → List VerifyOracle → Bool × List String
  | st, 0, _ => (false, st)
  | st, _ + 1, [] => (false, st)
  | st, r + 1, o :: os =>
    let res := verifyPayment sessionId sig pub st o 3
    if res.success then (true, res.storage)
    else orchestratorVerify sessionId sig pub res.storage r os

/-- The environment of one `handlePayment` run on the native SOL path:
wallet connectivity, the session price held in component state, the quoted
SOL/USD price, the signature returned by `sendTransaction`, whether the
price fetch, dispatch or confirmation step threw (caught by the outer
catch), the oracles of the up-to-three verification attempts, the ledger
status consulted on verification failure, and the component-level Redis
page-text scan. -/
structure HpEnv where
  walletConnected : Bool
  sessionId : String
  pricing : Rat
  solPriceUsd : Rat
  signature : String
  userPubKey : String
  dispatchThrew : Bool
  verifyOracles : List VerifyOracle
  ledger : LedgerStatus
  pageRedis : Bool

/-- The observable result of one `handlePayment` run: the terminal outcome,
the final verified-signature list, the number of `onRedirect` invocations
this run schedules, the lamport amount of the built native transfer (when
one was built), and the process-wide payment-completed flag. -/
structure HpResult where
  outcome : Outcome
  storage : List String
  redirects : Nat
  lamports : Option Int
  paymentCompleted : Bool
deriving DecidableEq, Repr

def LAMPORTS_PER_SOL : Rat := 1000000000

/-- The native-SOL branch of `handlePayment`. The 60-second safety timer is
armed right after entering the `try` block and cleared in the `finally`
block on every completion path, so in a completed run it never fires and is
not a source of `onRedirect` invocations; `redirects` therefore counts only
the explicit `onRedirect` schedulings. Note that the on-chain fallback path
(ledger reports confirmed or finalized after the backend verification
attempts all failed) reports success without writing the signature into the
verified-signature list, and that the page-text fallback path reports
success without setting the payment-completed flag, both as in the source. -/
def handlePaymentSol (e : HpEnv) (storage : List String) : HpResult :=
  if !e.walletConnected then ⟨.failure, storage, 0, none, false⟩
  else
    let solAmount : Rat := e.pricing / e.solPriceUsd
    let lam : Int := round (solAmount * LAMPORTS_PER_SOL)
    if e.dispatchThrew then ⟨.failure, storage, 0, some lam, false⟩
    else
      let v := orchestratorVerify e.sessionId e.signature e.userPubKey storage 3 e.verifyOracles
      if v.1 then ⟨.success, v.2, 1, some lam, true⟩
      else if e.ledger = .confirmed ∨ e.ledger = .finalized then
        ⟨.success, v.2, 1, some lam, true⟩
      else if e.pageRedis then ⟨.success, v.2, 1, some lam, false⟩
      else ⟨.failure, v.2, 0, some lam, false⟩

/-! ## Helper lemmas -/

theorem mem_storeVerifiedSignature (l : List String) (s : String) :
    s ∈ storeVerifiedSignature l s := by
  unfold storeVerifiedSignature
  split
  · assumption
  · simp

theorem storeVerifiedSignature_nodup (l : List String) (s : String) (h : l.Nodup) :
    (storeVerifiedSignature l s).Nodup := by
  unfold storeVerifiedSignature
  split
  · exact h
  · next hmem => simpa [List.nodup_append] using ⟨h, hmem⟩

/-- A `verifyLoop` run that reports failure leaves the verified-signature
list untouched: the list is only written on success paths. -/
theorem verifyLoop_fail_storage (hr hf : Bool) (sig : String) (st : List String) :
    ∀ (rounds : List VRound) (r req : Nat),
      (verifyLoop hr hf sig st r rounds req).success = false →
      (verifyLoop hr hf sig st r rounds req).storage = st := by
  intro rounds
  induction rounds with
  | nil =>
    intro r req _
    cases r <;> simp [verifyLoop]
  | cons round rest ih =>
    intro r req h
    cases r with
    | zero => simp [verifyLoop]
    | succ r =>
      cases round with
      | response pt status parses msg =>
        simp only [verifyLoop] at h ⊢
        split_ifs at h ⊢ <;> first | rfl | exact ih r (req + 1) h
      | timeout pt =>
        simp only [verifyLoop] at h ⊢
        split_ifs at h ⊢ <;> first | rfl | exact ih r (req + 1) h
      | transportError pt =>
        simp only [verifyLoop] at h ⊢
        split_ifs at h ⊢ <;> first | rfl | exact ih r (req + 1) h

/-- A failing `verifyPayment` call leaves the verified-signature list
untouched. -/
theorem verifyPayment_fail_storage (sessionId signature userPubKey : String)
    (storage : List String) (o : VerifyOracle) (mr : Nat)
    (h : (verifyPayment sessionId signature userPubKey storage o mr).success = false) :
    (verifyPayment sessionId signature userPubKey storage o mr).storage = storage := by
  unfold verifyPayment at h ⊢
  by_cases hg : sessionId = "" ∨ signature = "" ∨ userPubKey = ""
  · simp [hg]
  · simp only [if_neg hg] at h ⊢
    by_cases hm : jsTrim signature ∈ storage
    · simp [hm] at h
    · simp only [if_neg hm] at h ⊢
      by_cases hh : o.heurInitial = true
      · simp [hh] at h
      · have hh' : o.heurInitial = false := by simpa using hh
        simp only [hh', Bool.false_eq_true, if_false] at h ⊢
        exact verifyLoop_fail_storage _ _ _ _ _ _ _ h

/-- Every success path of `verifyLoop` except the exhausted-timeout
optimistic one records the signature. -/
theorem verifyLoop_success_mem (hr hf : Bool) (sig : String) (st : List String) :
    ∀ (rounds : List VRound) (r req : Nat),
      (verifyLoop hr hf sig st r rounds req).success = true →
      sig ∈ (verifyLoop hr hf sig st r rounds req).storage ∨
        (verifyLoop hr hf sig st r rounds req).message =
          "Payment may have been processed. Please check your account dashboard to verify." := by
  intro rounds
  induction rounds with
  | nil =>
    intro r req h
    cases r <;> simp [verifyLoop] at h
  | cons round rest ih =>
    intro r req h
    cases r with
    | zero => simp [verifyLoop] at h
    | succ r =>
      cases round with
      | response pt status parses msg =>
        simp only [verifyLoop] at h ⊢
        split_ifs at h ⊢ <;>
          first
          | exact Or.inl (mem_storeVerifiedSignature st sig)
          | exact ih r (req + 1) h
      | timeout pt =>
        simp only [verifyLoop] at h ⊢
        split_ifs at h ⊢ <;>
          first
          | exact Or.inl (mem_storeVerifiedSignature st sig)
          | exact ih r (req + 1) h
          | exact Or.inr rfl
      | transportError pt =>
        simp only [verifyLoop] at h ⊢
        split_ifs at h ⊢ <;>
          first
          | exact Or.inl (mem_storeVerifiedSignature st sig)
          | exact ih r (req + 1) h

/-- An orchestrator-level verification loop whose aggregated outcome is
failure leaves the verified-signature list untouched. -/
theorem orchestratorVerify_fail_storage (sessionId sig pub : String) :
    ∀ (os : List VerifyOracle) (st : List String) (n : Nat),
      (orchestratorVerify sessionId sig pub st n os).1 = false →
      (orchestratorVerify sessionId sig pub st n os).2 = st := by
  intro os
  induction os with
  | nil =>
    intro st n _
    cases n <;> simp [orchestratorVerify]
  | cons o os ih =>
    intro st n h
    cases n with
    | zero => simp [orchestratorVerify]
    | succ n =>
      by_cases hv : (verifyPayment sessionId sig pub st o 3).success = true
      · exfalso
        simp [orchestratorVerify, hv] at h
      · have hv' : (verifyPayment sessionId sig pub st o 3).success = false := by
          simpa using hv
        have hpres := verifyPayment_fail_storage sessionId sig pub st o 3 hv'
        simp only [orchestratorVerify, hv', Bool.false_eq_true, if_false] at h ⊢
        rw [ih _ _ h, hpres]

/-- A `verifyLoop` run whose oracle yields only timeouts, with the attempt
budget equal to the number of rounds, ends in the optimistic success without
touching the verified-signature list. -/
theorem verifyLoop_all_timeouts (hr hf : Bool) (sig : String) (st : List String) :
    ∀ (n : Nat), 1 ≤ n → ∀ (req : Nat),
      verifyLoop hr hf sig st n (List.replicate n (VRound.timeout false)) req =
        ⟨true, "Payment may have been processed. Please check your account dashboard to verify.",
         st, req + n⟩ := by
  intro n
  induction n with
  | zero => intro h; omega
  | succ m ih =>
    intro _ req
    cases m with
    | zero => simp [verifyLoop]
    | succ k =>
      have := ih (by omega) (req + 1)
      simp only [List.replicate, verifyLoop, Bool.false_and, Bool.false_eq_true, if_false,
        Nat.succ_sub_one] at this ⊢
      rw [if_pos (Nat.succ_pos k)]
      rw [this]
      congr 1
      omega

/-! ## Claim theorems -/

/-- C10: `storeVerifiedSignature` leaves the stored list unchanged when the
signature is already present, otherwise appends exactly that signature, and
therefore preserves distinctness of the stored signatures. -/
theorem c10_store_nodup :
    (∀ (l : List String) (s : String), s ∈ l → storeVerifiedSignature l s = l) ∧
    (∀ (l : List String) (s : String), s ∉ l → storeVerifiedSignature l s = l ++ [s]) ∧
    (∀ (l : List String) (s : String), l.Nodup → (storeVerifiedSignature l s).Nodup) := by
  refine ⟨fun l s h => ?_, fun l s h => ?_, fun l s h => storeVerifiedSignature_nodup l s h⟩
  · simp [storeVerifiedSignature, h]
  · simp [storeVerifiedSignature, h]

theorem c10_store_nodup_witness :
    storeVerifiedSignature ["a"] "a" = ["a"] ∧
    storeVerifiedSignature ["a"] "b" = ["a", "b"] ∧
    (storeVerifiedSignature ["a"] "b").Nodup :=
  ⟨c10_store_nodup.1 ["a"] "a" (by decide),
   c10_store_nodup.2.1 ["a"] "b" (by decide),
   c10_store_nodup.2.2 ["a"] "b" (by decide)⟩

/-- C9: when every one of the `maxRetries` verification attempts ends in a
timeout, `verifyPayment` returns success with the message that the payment
may have been processed, leaving the verified-signature list untouched (and,
by construction of `verifyPayment`, without any ledger query). -/
theorem c9_timeout_optimistic_success (sessionId signature userPubKey : String)
    (storage : List String) (hr hf : Bool) (n : Nat)
    (hs : sessionId ≠ "") (hg : signature ≠ "") (hu : userPubKey ≠ "")
    (hmem : jsTrim signature ∉ storage) (hn : 1 ≤ n) :
    verifyPayment sessionId signature userPubKey storage
      ⟨false, hr, hf, List.replicate n (VRound.timeout false)⟩ n =
      ⟨true, "Payment may have been processed. Please check your account dashboard to verify.",
       storage, n⟩ := by
  have hguard : ¬ (sessionId = "" ∨ signature = "" ∨ userPubKey = "") := by tauto
  unfold verifyPayment
  rw [if_neg hguard, if_neg hmem]
  simp only [Bool.false_eq_true, if_false]
  simpa using verifyLoop_all_timeouts hr hf (jsTrim signature) storage n hn 0

theorem c9_timeout_optimistic_success_witness :
    verifyPayment "s" "sig" "u" []
      ⟨false, false, false, List.replicate 3 (VRound.timeout false)⟩ 3 =
      ⟨true, "Payment may have been processed. Please check your account dashboard to verify.",
       [], 3⟩ :=
  c9_timeout_optimistic_success "s" "sig" "u" [] false false 3
    (by decide) (by decide) (by decide) (by decide) (by decide)

/-- C3: a verification round answered with HTTP 409 yields success and
records the trimmed signature in the verified-signature list, for either
value of the body-parses flag and any body message, using exactly the one
network round. -/
theorem c3_conflict_409_success (sessionId signature userPubKey : String)
    (storage : List String) (hr hf pt parses : Bool) (msg : Option String)
    (rest : List VRound) (mr : Nat)
    (hs : sessionId ≠ "") (hg : signature ≠ "") (hu : userPubKey ≠ "")
    (hmem : jsTrim signature ∉ storage) (hmr : 1 ≤ mr) :
    (verifyPayment sessionId signature userPubKey storage
        ⟨false, hr, hf, VRound.response pt 409 parses msg :: rest⟩ mr).success = true ∧
    jsTrim signature ∈ (verifyPayment sessionId signature userPubKey storage
        ⟨false, hr, hf, VRound.response pt 409 parses msg :: rest⟩ mr).storage ∧
    (verifyPayment sessionId signature userPubKey storage
        ⟨false, hr, hf, VRound.response pt 409 parses msg :: rest⟩ mr).requests = 1 := by
  have hguard : ¬ (sessionId = "" ∨ signature = "" ∨ userPubKey = "") := by tauto
  unfold verifyPayment
  rw [if_neg hguard, if_neg hmem]
  simp only [Bool.false_eq_true, if_false]
  obtain ⟨r, rfl⟩ : ∃ r, mr = r + 1 := ⟨mr - 1, by omega⟩
  by_cases hph : (pt && hr) = true
  · simp [verifyLoop, hph, mem_storeVerifiedSignature]
  · simp only [verifyLoop, hph, Bool.false_eq_true, if_false, if_pos rfl]
    exact ⟨rfl, mem_storeVerifiedSignature storage (jsTrim signature), rfl⟩

theorem c3_conflict_409_success_witness :
    (verifyPayment "s" "sig" "u" []
        ⟨false, false, false, [VRound.response false 409 false none]⟩ 3).success = true ∧
    jsTrim "sig" ∈ (verifyPayment "s" "sig" "u" []
        ⟨false, false, false, [VRound.response false 409 false none]⟩ 3).storage ∧
    (verifyPayment "s" "sig" "u" []
        ⟨false, false, false, [VRound.response false 409 false none]⟩ 3).requests = 1 :=
  c3_conflict_409_success "s" "sig" "u" [] false false false false none [] 3
    (by decide) (by decide) (by decide) (by decide) (by decide)

/-- C2 counterexample: a first `verifyPayment` call whose attempts all time
out succeeds (optimistically) without recording the signature, so a second
call with the same signature still performs a network request — refuting the
claim that the second call performs no network request once the first
succeeded. -/
theorem c2_counterexample :
    (verifyPayment "s" "sig" "u" []
        ⟨false, false, false,
         [VRound.timeout false, VRound.timeout false, VRound.timeout false]⟩ 3).success = true ∧
    (verifyPayment "s" "sig" "u"
        (verifyPayment "s" "sig" "u" []
          ⟨false, false, false,
           [VRound.timeout false, VRound.timeout false, VRound.timeout false]⟩ 3).storage
        ⟨false, false, false, [VRound.response false 200 true none]⟩ 3).requests = 1 := by
  decide

/-- C2 (amended): if the trimmed signature is already in the
verified-signature list, `verifyPayment` short-circuits to success before
any network round; and every successful call either records the signature in
the list or is the exhausted-timeout optimistic success (which does not). So
the second of two calls with the same signature performs no network request
whenever the first success recorded the signature. -/
theorem c2_short_circuit_amended :
    (∀ (sessionId signature userPubKey : String) (storage : List String)
        (o : VerifyOracle) (mr : Nat),
        sessionId ≠ "" → signature ≠ "" → userPubKey ≠ "" →
        jsTrim signature ∈ storage →
        verifyPayment sessionId signature userPubKey storage o mr =
          ⟨true, "Payment already verified", storage, 0⟩) ∧
    (∀ (sessionId signature userPubKey : String) (storage : List String)
        (o : VerifyOracle) (mr : Nat),
        (verifyPayment sessionId signature userPubKey storage o mr).success = true →
        jsTrim signature ∈
            (verifyPayment sessionId signature userPubKey storage o mr).storage ∨
          (verifyPayment sessionId signature userPubKey storage o mr).message =
            "Payment may have been processed. Please check your account dashboard to verify.") := by
  constructor
  · intro sessionId signature userPubKey storage o mr hs hg hu hmem
    have hguard : ¬ (sessionId = "" ∨ signature = "" ∨ userPubKey = "") := by tauto
    unfold verifyPayment
    rw [if_neg hguard, if_pos hmem]
  · intro sessionId signature userPubKey storage o mr h
    unfold verifyPayment at h ⊢
    by_cases hguard : sessionId = "" ∨ signature = "" ∨ userPubKey = ""
    · simp [hguard] at h
    · simp only [if_neg hguard] at h ⊢
      by_cases hmem : jsTrim signature ∈ storage
      · simp only [if_pos hmem]
        exact Or.inl hmem
      · simp only [if_neg hmem] at h ⊢
        by_cases hh : o.heurInitial = true
        · simp only [hh, if_true]
          exact Or.inl (mem_storeVerifiedSignature storage (jsTrim signature))
        · have hh' : o.heurInitial = false := by simpa using hh
          simp only [hh', Bool.false_eq_true, if_false] at h ⊢
          exact verifyLoop_success_mem _ _ _ _ _ _ _ h

theorem c2_short_circuit_amended_witness :
    verifyPayment "s" "sig" "u" ["sig"]
      ⟨false, false, false, [VRound.response false 200 true none]⟩ 3 =
      ⟨true, "Payment already verified", ["sig"], 0⟩ ∧
    (jsTrim "sig" ∈ (verifyPayment "s" "sig" "u" []
        ⟨false, false, false, [VRound.response false 200 true none]⟩ 3).storage ∨
      (verifyPayment "s" "sig" "u" []
        ⟨false, false, false, [VRound.response false 200 true none]⟩ 3).message =
        "Payment may have been processed. Please check your account dashboard to verify.") :=
  ⟨c2_short_circuit_amended.1 "s" "sig" "u" ["sig"]
      ⟨false, false, false, [VRound.response false 200 true none]⟩ 3
      (by decide) (by decide) (by decide) (by decide),
   c2_short_circuit_amended.2 "s" "sig" "u" []
      ⟨false, false, false, [VRound.response false 200 true none]⟩ 3 (by decide)⟩

/-- C6: a session id containing any character outside `[A-Za-z0-9_-]` makes
`fetchSession` fail with zero network requests: the id is rejected, not
silently sanitized. -/
theorem c6_reject_bad_session_id (sessionId nowIso : String) (rounds : List FetchRound)
    (mr : Nat) (h : ∃ c ∈ sessionId.data, allowedIdChar c = false) :
    fetchSession sessionId nowIso rounds mr = ⟨none, 0⟩ := by
  obtain ⟨c, hc, hbad⟩ := h
  have hne : sessionId ≠ "" := by
    intro he
    subst he
    rw [show ("" : String).data = [] from rfl] at hc
    exact absurd hc (List.not_mem_nil c)
  have hneq : String.mk (sessionId.data.filter allowedIdChar) ≠ sessionId := by
    intro he
    have hdata : sessionId.data.filter allowedIdChar = sessionId.data :=
      congrArg String.data he
    have hall := List.filter_eq_self.mp hdata c hc
    rw [hbad] at hall
    exact Bool.false_ne_true hall
  unfold fetchSession
  rw [if_neg hne]
  exact if_pos hneq

theorem c6_reject_bad_session_id_witness :
    fetchSession "ab$c" "now" [FetchRound.response 200 (some [])] 3 = ⟨none, 0⟩ :=
  c6_reject_bad_session_id "ab$c" "now" [FetchRound.response 200 (some [])] 3
    ⟨'$', by decide, by decide⟩

/-- The fail-closed direction of session normalization, shared by the C5
statement and its proof. -/
theorem c5_aux (nowIso : String) (d : JObj)
    (h : orChain d idKeys = none ∨ orChain d saasIdKeys = none ∨
         orChain d emailKeys = none ∨ orChain d addressKeys = none ∨
         orChain d planKeys = none ∨ numChain d priceKeys = none ∨
         ∃ q, numChain d priceKeys = some q ∧ q ≤ 0) :
    mapResponseToSessionType nowIso (some d) = none ∧
    ∀ (sessionId : String) (rest : List FetchRound) (mr : Nat),
      sessionId ≠ "" → sessionId.data.all allowedIdChar = true → 1 ≤ mr →
      fetchSession sessionId nowIso (FetchRound.response 200 (some d) :: rest) mr =
        ⟨none, 1⟩ := by
  have hmap : mapResponseToSessionType nowIso (some d) = none := by
    simp only [mapResponseToSessionType]
    split
    · rename_i priceV h1 h2 h3 h4 h5 h6
      rcases h with hx | hx | hx | hx | hx | hx | ⟨q, hq, hq0⟩
      · rw [hx] at h1; exact absurd h1 (by simp)
      · rw [hx] at h2; exact absurd h2 (by simp)
      · rw [hx] at h3; exact absurd h3 (by simp)
      · rw [hx] at h4; exact absurd h4 (by simp)
      · rw [hx] at h5; exact absurd h5 (by simp)
      · rw [hx] at h6; exact absurd h6 (by simp)
      · have hpq : priceV = q := by
          rw [h6] at hq
          exact Option.some.inj hq
        rw [if_pos (by rw [hpq]; exact hq0)]
    · rfl
  refine ⟨hmap, ?_⟩
  intro sessionId rest mr hne hall hmr
  have hsan : String.mk (sessionId.data.filter allowedIdChar) = sessionId := by
    have hfil : sessionId.data.filter allowedIdChar = sessionId.data :=
      List.filter_eq_self.mpr (by simpa using hall)
    rw [hfil]
  have hskip : fetchSession sessionId nowIso (FetchRound.response 200 (some d) :: rest) mr
      = fetchLoop nowIso mr (FetchRound.response 200 (some d) :: rest) 0 := by
    unfold fetchSession
    rw [if_neg hne]
    exact if_neg (not_not_intro hsan)
  rw [hskip]
  obtain ⟨r, rfl⟩ : ∃ r, mr = r + 1 := ⟨mr - 1, by omega⟩
  simp [fetchLoop, hmap]

/-- C5: session normalization fails closed. If after alias resolution any of
the six mandatory fields (id, merchant id, email, merchant address, plan,
price) is absent, or the resolved price is not a number greater than 0, then
`mapResponseToSessionType` rejects the record and `fetchSession` fails for a
well-formed id answered with that record, rather than returning a partial
session; conversely, when the six mandatory fields resolve and the price is
positive, only the merchant name, logo and creation time fall back to their
defaults. -/
theorem c5_session_fail_closed :
    (∀ (nowIso : String) (d : JObj),
      (orChain d idKeys = none ∨ orChain d saasIdKeys = none ∨
       orChain d emailKeys = none ∨ orChain d addressKeys = none ∨
       orChain d planKeys = none ∨ numChain d priceKeys = none ∨
       ∃ q, numChain d priceKeys = some q ∧ q ≤ 0) →
      mapResponseToSessionType nowIso (some d) = none ∧
      ∀ (sessionId : String) (rest : List FetchRound) (mr : Nat),
        sessionId ≠ "" → sessionId.data.all allowedIdChar = true → 1 ≤ mr →
        fetchSession sessionId nowIso (FetchRound.response 200 (some d) :: rest) mr =
          ⟨none, 1⟩) ∧
    (∀ (nowIso : String) (d : JObj) (v1 v2 v3 v4 v5 : JVal) (q : Rat),
      orChain d idKeys = some v1 → orChain d saasIdKeys = some v2 →
      orChain d emailKeys = some v3 → orChain d addressKeys = some v4 →
      orChain d planKeys = some v5 → numChain d priceKeys = some q → 0 < q →
      orChain d saasNameKeys = none → orChain d timeKeys = none →
      orChain d logoKeys = none →
      mapResponseToSessionType nowIso (some d) =
        some ⟨v1, v2, JVal.jstr "Merchant", JVal.jstr nowIso, v3, v4,
              JVal.jstr "", v5, q⟩) := by
  constructor
  · intro nowIso d h
    exact c5_aux nowIso d h
  · intro nowIso d v1 v2 v3 v4 v5 q h1 h2 h3 h4 h5 h6 hqpos hn ht hl
    simp only [mapResponseToSessionType, h1, h2, h3, h4, h5, h6, hn, ht, hl]
    rw [if_neg (not_le.mpr hqpos)]
    simp

theorem c5_session_fail_closed_witness :
    mapResponseToSessionType "now"
      (some [("id", JVal.jstr "abc123"), ("saasId", JVal.jstr "m1"),
             ("address", JVal.jstr "M"), ("plan", JVal.jstr "pro"),
             ("price", JVal.jnum 10)]) = none ∧
    fetchSession "abc123" "now"
      [FetchRound.response 200
        (some [("id", JVal.jstr "abc123"), ("saasId", JVal.jstr "m1"),
               ("address", JVal.jstr "M"), ("plan", JVal.jstr "pro"),
               ("price", JVal.jnum 10)])] 3 = ⟨none, 1⟩ ∧
    mapResponseToSessionType "now"
      (some [("id", JVal.jstr "abc123"), ("saasId", JVal.jstr "m1"),
             ("email", JVal.jstr "e@x.com"), ("address", JVal.jstr "M"),
             ("plan", JVal.jstr "pro"), ("price", JVal.jnum 10)]) =
      some ⟨JVal.jstr "abc123", JVal.jstr "m1", JVal.jstr "Merchant",
            JVal.jstr "now", JVal.jstr "e@x.com", JVal.jstr "M",
            JVal.jstr "", JVal.jstr "pro", 10⟩ := by
  have h := c5_session_fail_closed.1 "now"
    [("id", JVal.jstr "abc123"), ("saasId", JVal.jstr "m1"),
     ("address", JVal.jstr "M"), ("plan", JVal.jstr "pro"),
     ("price", JVal.jnum 10)]
    (Or.inr (Or.inr (Or.inl (by decide))))
  refine ⟨h.1, h.2 "abc123" [] 3 (by decide) (by decide) (by decide), ?_⟩
  exact c5_session_fail_closed.2 "now"
    [("id", JVal.jstr "abc123"), ("saasId", JVal.jstr "m1"),
     ("email", JVal.jstr "e@x.com"), ("address", JVal.jstr "M"),
     ("plan", JVal.jstr "pro"), ("price", JVal.jnum 10)]
    (JVal.jstr "abc123") (JVal.jstr "m1") (JVal.jstr "e@x.com") (JVal.jstr "M")
    (JVal.jstr "pro") 10
    (by decide) (by decide) (by decide) (by decide) (by decide) (by decide)
    (by norm_num) (by decide) (by decide) (by decide)

/-- The retry loop performs at most `maxRetries - attempts` further network
rounds. -/
theorem createLoop_requests (mr : Nat) :
    ∀ (rounds : List CRound) (a : Nat) (js : List Rat) (req : Nat) (ds : List Rat),
      (createLoop mr a rounds js req ds).requests ≤ req + (mr - a) := by
  intro rounds
  induction rounds with
  | nil =>
    intro a js req ds
    simp [createLoop]
  | cons round rest ih =>
    intro a js req ds
    simp only [createLoop]
    by_cases ha : a < mr
    · rw [if_pos ha]
      cases round with
      | response status sid =>
        dsimp only
        by_cases hok : 200 ≤ status ∧ status < 300
        · rw [if_pos hok]
          cases sid <;> simp <;> omega
        · rw [if_neg hok]
          by_cases hretry : 500 ≤ status ∨ status = 429
          · rw [if_pos hretry]
            by_cases hnext : a + 1 < mr
            · rw [if_pos hnext]
              calc (createLoop mr (a + 1) rest (takeJitter js).2 (req + 1)
                      (ds ++ [backoffDelay (a + 1) (takeJitter js).1 10000])).requests
                  ≤ (req + 1) + (mr - (a + 1)) := ih (a + 1) (takeJitter js).2 (req + 1) _
                _ ≤ req + (mr - a) := by omega
            · rw [if_neg hnext]
              simp
              omega
          · rw [if_neg hretry]
            simp
            omega
      | netFail =>
        dsimp only
        by_cases hnext : a + 1 < mr
        · rw [if_pos hnext]
          calc (createLoop mr (a + 1) rest (takeJitter js).2 (req + 1)
                  (ds ++ [backoffDelay (a + 1) (takeJitter js).1 10000])).requests
              ≤ (req + 1) + (mr - (a + 1)) := ih (a + 1) (takeJitter js).2 (req + 1) _
            _ ≤ req + (mr - a) := by omega
        · rw [if_neg hnext]
          simp
          omega
    · rw [if_neg ha]
      simp

theorem takeJitter_head_bounds (js : List Rat) (h : ∀ j ∈ js, 0 ≤ j ∧ j ≤ 1000) :
    0 ≤ (takeJitter js).1 ∧ (takeJitter js).1 ≤ 1000 := by
  cases js with
  | nil => simp [takeJitter]
  | cons j js => exact h j (by simp [takeJitter])

theorem takeJitter_tail_bounds (js : List Rat) (h : ∀ j ∈ js, 0 ≤ j ∧ j ≤ 1000) :
    ∀ j ∈ (takeJitter js).2, 0 ≤ j ∧ j ≤ 1000 := by
  cases js with
  | nil => simp [takeJitter]
  | cons j js =>
    intro x hx
    exact h x (by simp [takeJitter] at hx ⊢; exact Or.inr hx)

/-- With jitters drawn from `[0, 1000]`, a retry delay for attempt number
`a + 1 ≤ 3` is below the 10-second cap and equals the uncapped formula. -/
theorem backoffDelay_uncapped (a : Nat) (j : Rat) (ha : a + 1 ≤ 3)
    (hj0 : 0 ≤ j) (hj1 : j ≤ 1000) :
    backoffDelay (a + 1) j 10000 = 1000 * 2 ^ (a + 1) + j := by
  unfold backoffDelay
  apply min_eq_left
  have hpow : (2 : Rat) ^ (a + 1) ≤ 2 ^ 3 := by
    apply pow_le_pow_right₀ (by norm_num)
    omega
  have : (2 : Rat) ^ 3 = 8 := by norm_num
  nlinarith

/-- Delays accumulated by the retry loop stay strictly increasing: the
invariant tracks that every recorded delay is below the floor of the next
one. Needs `maxRetries ≤ 4`, which covers the hard-wired default of 3; for
larger budgets the 10-second cap can level consecutive delays. -/
theorem createLoop_delays_sorted (mr : Nat) (hmr : mr ≤ 4) :
    ∀ (rounds : List CRound) (a : Nat) (js : List Rat) (req : Nat) (ds : List Rat),
      (∀ j ∈ js, 0 ≤ j ∧ j ≤ 1000) →
      ds.Pairwise (· < ·) →
      (∀ x ∈ ds, x < 1000 * 2 ^ (a + 1)) →
      (createLoop mr a rounds js req ds).delays.Pairwise (· < ·) := by
  intro rounds
  induction rounds with
  | nil =>
    intro a js req ds _ hp _
    simpa [createLoop] using hp
  | cons round rest ih =>
    intro a js req ds hj hp hb
    simp only [createLoop]
    by_cases ha : a < mr
    · rw [if_pos ha]
      have hstep : ∀ (req : Nat), a + 1 < mr →
          (createLoop mr (a + 1) rest (takeJitter js).2 req
            (ds ++ [backoffDelay (a + 1) (takeJitter js).1 10000])).delays.Pairwise
              (· < ·) := by
        intro req hnext
        have hj1 := takeJitter_head_bounds js hj
        have hle3 : a + 1 ≤ 3 := by omega
        have hd : backoffDelay (a + 1) (takeJitter js).1 10000 =
            1000 * 2 ^ (a + 1) + (takeJitter js).1 :=
          backoffDelay_uncapped a (takeJitter js).1 hle3 hj1.1 hj1.2
        apply ih (a + 1) (takeJitter js).2 req _
          (takeJitter_tail_bounds js hj)
        · rw [List.pairwise_append]
          refine ⟨hp, by simp, ?_⟩
          intro x hx y hy
          rw [List.mem_singleton] at hy
          subst hy
          rw [hd]
          have := hb x hx
          linarith [hj1.1]
        · intro x hx
          rw [List.mem_append, List.mem_singleton] at hx
          have hpow : (2 : Rat) ≤ 2 ^ (a + 1) := by
            calc (2 : Rat) = 2 ^ 1 := by norm_num
              _ ≤ 2 ^ (a + 1) := pow_le_pow_right₀ (by norm_num) (by omega)
          have hsucc : (1000 : Rat) * 2 ^ (a + 1 + 1) = 2 * (1000 * 2 ^ (a + 1)) := by
            rw [pow_succ]
            ring
          rcases hx with hx | hx
          · have := hb x hx
            rw [hsucc]
            nlinarith
          · subst hx
            rw [hd, hsucc]
            nlinarith [hj1.2]
      cases round with
      | response status sid =>
        dsimp only
        by_cases hok : 200 ≤ status ∧ status < 300
        · rw [if_pos hok]
          cases sid <;> simpa using hp
        · rw [if_neg hok]
          by_cases hretry : 500 ≤ status ∨ status = 429
          · rw [if_pos hretry]
            by_cases hnext : a + 1 < mr
            · rw [if_pos hnext]
              exact hstep (req + 1) hnext
            · rw [if_neg hnext]
              simpa using hp
          · rw [if_neg hretry]
            simpa using hp
      | netFail =>
        dsimp only
        by_cases hnext : a + 1 < mr
        · rw [if_pos hnext]
          exact hstep (req + 1) hnext
        · rw [if_neg hnext]
          simpa using hp
    · rw [if_neg ha]
      simpa using hp

/-- A round answered with HTTP 400, or 404 even after the in-round endpoint
fallback, ends the retry loop at once: no further round and no backoff. -/
theorem createLoop_no_retry_400_404 (mr a status : Nat) (sid : Option String)
    (rest : List CRound) (js : List Rat) (req : Nat) (ds : List Rat)
    (ha : a < mr) (hs : status = 400 ∨ status = 404) :
    createLoop mr a (CRound.response status sid :: rest) js req ds = ⟨none, req + 1, ds⟩ := by
  simp only [createLoop]
  rw [if_pos ha]
  rcases hs with h | h <;> subst h <;> norm_num

/-- With valid inputs, `createSession` is the retry loop started at attempt
zero. -/
theorem createSession_valid (saasId email plan : String) (rounds : List CRound)
    (js : List Rat) (mr : Nat) (hsa : saasId ≠ "")
    (hv : validateEmail email = true) (hp : plan ≠ "") :
    createSession saasId email plan rounds js mr = createLoop mr 0 rounds js 0 [] := by
  unfold createSession
  rw [if_neg hsa, if_neg (by simp [hv]), if_neg hp]

/-- C7: the `createSession` retry policy. (1) At most `maxRetries` network
rounds are performed. (2) With jitters in `[0, 1000]` and a retry budget up
to 4 (the hard-wired default is 3), the backoff delays are strictly
increasing. (3) An HTTP 400, or an HTTP 404 surviving the endpoint fallback,
is never retried: the call fails after that single round with no backoff.
(4) A 500-then-200 response sequence yields exactly the returned session id
in two rounds, after one backoff delay of `1000 * 2 ^ 1 + jitter`
milliseconds (below the 10-second cap). (5) A transport failure is likewise
retried, a following 200 yielding the session id in two rounds. -/
theorem c7_retry_policy :
    (∀ (saasId email plan : String) (rounds : List CRound) (js : List Rat) (mr : Nat),
        (createSession saasId email plan rounds js mr).requests ≤ mr) ∧
    (∀ (saasId email plan : String) (rounds : List CRound) (js : List Rat) (mr : Nat),
        mr ≤ 4 → (∀ j ∈ js, 0 ≤ j ∧ j ≤ 1000) →
        (createSession saasId email plan rounds js mr).delays.Pairwise (· < ·)) ∧
    (∀ (saasId email plan : String) (status : Nat) (sid : Option String)
        (rest : List CRound) (js : List Rat) (mr : Nat),
        saasId ≠ "" → validateEmail email = true → plan ≠ "" → 0 < mr →
        (status = 400 ∨ status = 404) →
        createSession saasId email plan (CRound.response status sid :: rest) js mr =
          ⟨none, 1, []⟩) ∧
    (∀ (saasId email plan sid : String) (j : Rat),
        saasId ≠ "" → validateEmail email = true → plan ≠ "" → 0 ≤ j → j ≤ 1000 →
        createSession saasId email plan
          [CRound.response 500 none, CRound.response 200 (some sid)] [j] 3 =
          ⟨some sid, 2, [1000 * 2 ^ 1 + j]⟩) ∧
    (∀ (saasId email plan sid : String) (js : List Rat),
        saasId ≠ "" → validateEmail email = true → plan ≠ "" →
        (createSession saasId email plan
            [CRound.netFail, CRound.response 200 (some sid)] js 3).sessionId = some sid ∧
        (createSession saasId email plan
            [CRound.netFail, CRound.response 200 (some sid)] js 3).requests = 2) := by
  refine ⟨?_, ?_, ?_, ?_, ?_⟩
  · intro saasId email plan rounds js mr
    unfold createSession
    split_ifs <;> first | simp | simpa using createLoop_requests mr rounds 0 js 0 []
  · intro saasId email plan rounds js mr hmr hj
    unfold createSession
    split_ifs <;>
      first
      | simp
      | exact createLoop_delays_sorted mr hmr rounds 0 js 0 [] hj (by simp) (by simp)
  · intro saasId email plan status sid rest js mr hsa hv hp hmr hs
    rw [createSession_valid saasId email plan _ js mr hsa hv hp]
    simpa using createLoop_no_retry_400_404 mr 0 status sid rest js 0 [] hmr hs
  · intro saasId email plan sid j hsa hv hp hj0 hj1
    rw [createSession_valid saasId email plan _ [j] 3 hsa hv hp]
    have hd : backoffDelay (0 + 1) j 10000 = 1000 * 2 ^ (0 + 1) + j :=
      backoffDelay_uncapped 0 j (by omega) hj0 hj1
    simp only [createLoop, takeJitter]
    norm_num [hd]
  · intro saasId email plan sid js hsa hv hp
    rw [createSession_valid saasId email plan _ js 3 hsa hv hp]
    simp only [createLoop, takeJitter]
    norm_num

theorem c7_retry_policy_witness :
    (createSession "m1" "e@x.com" "pro"
        [CRound.response 500 none, CRound.response 200 (some "sid1")] [7] 3).requests ≤ 3 ∧
    (createSession "m1" "e@x.com" "pro"
        [CRound.response 500 none, CRound.response 200 (some "sid1")] [7] 3).delays.Pairwise
        (· < ·) ∧
    createSession "m1" "e@x.com" "pro" [CRound.response 400 none] [] 3 = ⟨none, 1, []⟩ ∧
    createSession "m1" "e@x.com" "pro"
        [CRound.response 500 none, CRound.response 200 (some "sid1")] [7] 3 =
      ⟨some "sid1", 2, [1000 * 2 ^ 1 + 7]⟩ ∧
    (createSession "m1" "e@x.com" "pro"
        [CRound.netFail, CRound.response 200 (some "sid1")] [] 3).sessionId = some "sid1" ∧
    (createSession "m1" "e@x.com" "pro"
        [CRound.netFail, CRound.response 200 (some "sid1")] [] 3).requests = 2 :=
  ⟨c7_retry_policy.1 "m1" "e@x.com" "pro" _ [7] 3,
   c7_retry_policy.2.1 "m1" "e@x.com" "pro" _ [7] 3 (by norm_num) (by norm_num),
   c7_retry_policy.2.2.1 "m1" "e@x.com" "pro" 400 none [] [] 3
     (by decide) (by decide) (by decide) (by norm_num) (Or.inl rfl),
   c7_retry_policy.2.2.2.1 "m1" "e@x.com" "pro" "sid1" 7
     (by decide) (by decide) (by decide) (by norm_num) (by norm_num),
   (c7_retry_policy.2.2.2.2 "m1" "e@x.com" "pro" "sid1" []
     (by decide) (by decide) (by decide)).1,
   (c7_retry_policy.2.2.2.2 "m1" "e@x.com" "pro" "sid1" []
     (by decide) (by decide) (by decide)).2⟩

/-- A verification attempt whose three network rounds all answer HTTP 500
with no heuristic page markers: every such `verifyPayment` call fails. -/
def failing500Oracle : VerifyOracle :=
  ⟨false, false, false,
   [VRound.response false 500 false none, VRound.response false 500 false none,
    VRound.response false 500 false none]⟩

/-- A payment run whose three verification attempts all fail against the
backend while the ledger reports the signature finalized. -/
def ledgerFallbackEnv : HpEnv :=
  ⟨true, "s", 10, 20, "sig", "u", false,
   [failing500Oracle, failing500Oracle, failing500Oracle],
   LedgerStatus.finalized, false⟩

/-- The same failed-verification run with an inconclusive ledger and no page
markers: a terminal failure. -/
def verifyFailedEnv : HpEnv :=
  { ledgerFallbackEnv with ledger := LedgerStatus.missing }

/-- C1 counterexample: with every backend verification attempt failing and
the ledger reporting the signature finalized, the run ends in
Terminal/Success, but the signature is not added to the verified-signature
set (it stays empty) — refuting the claim's final conjunct. -/
theorem c1_counterexample :
    (handlePaymentSol ledgerFallbackEnv []).outcome = Outcome.success ∧
    ledgerFallbackEnv.signature ∉ (handlePaymentSol ledgerFallbackEnv []).storage := by
  decide

/-- C1 (amended): when the wallet is connected, dispatch and confirmation
succeed, all orchestrator-level verification attempts fail, and the ledger
re-check reports the signature confirmed or finalized, the run ends in
Terminal/Success — but the verified-signature set is left unchanged: only
`verifyPayment`'s own success paths write it, and the ledger-fallback path
in `handlePayment` does not. -/
theorem c1_ledger_fallback_amended (e : HpEnv) (storage : List String)
    (hw : e.walletConnected = true) (hd : e.dispatchThrew = false)
    (hv : (orchestratorVerify e.sessionId e.signature e.userPubKey storage 3
            e.verifyOracles).1 = false)
    (hl : e.ledger = LedgerStatus.confirmed ∨ e.ledger = LedgerStatus.finalized) :
    (handlePaymentSol e storage).outcome = Outcome.success ∧
    (handlePaymentSol e storage).storage = storage := by
  have hst := orchestratorVerify_fail_storage e.sessionId e.signature e.userPubKey
    e.verifyOracles storage 3 hv
  unfold handlePaymentSol
  simp only [hw, Bool.not_true, Bool.false_eq_true, if_false, hd, hv, if_pos hl]
  exact ⟨trivial, hst⟩

theorem c1_ledger_fallback_amended_witness :
    (handlePaymentSol ledgerFallbackEnv []).outcome = Outcome.success ∧
    (handlePaymentSol ledgerFallbackEnv []).storage = [] :=
  c1_ledger_fallback_amended ledgerFallbackEnv [] (by decide) (by decide) (by decide)
    (Or.inr rfl)

/-- C4 counterexample: a run whose verification attempts all fail, with an
inconclusive ledger and no page markers, reaches Terminal/Failure with zero
`onRedirect` invocations — refuting the claim that a terminal outcome always
invokes the completion callback exactly once. -/
theorem c4_counterexample :
    (handlePaymentSol verifyFailedEnv []).outcome = Outcome.failure ∧
    (handlePaymentSol verifyFailedEnv []).redirects = 0 := by
  decide

/-- C4 (amended): in every completed `handlePayment` run (where the
`finally` block has cancelled the 60-second safety timer), the `onRedirect`
callback is scheduled exactly once on Terminal/Success and never on
Terminal/Failure. -/
theorem c4_redirect_amended (e : HpEnv) (storage : List String) :
    ((handlePaymentSol e storage).outcome = Outcome.success ↔
      (handlePaymentSol e storage).redirects = 1) ∧
    ((handlePaymentSol e storage).outcome = Outcome.failure ↔
      (handlePaymentSol e storage).redirects = 0) := by
  simp only [handlePaymentSol]
  split_ifs <;> simp

/-- C8: in the native-SOL path of a run with session price 10 USD and a
positive quoted SOL/USD price, the built transfer carries
`Math.round (10 / solPriceUsd * LAMPORTS_PER_SOL)` lamports, which is within
one half lamport of the exact value `(10 / solPriceUsd) * 10 ^ 9` — the
nearest integer amount of the smallest native unit. -/
theorem c8_sol_amount (e : HpEnv) (storage : List String)
    (hw : e.walletConnected = true) (hd : e.dispatchThrew = false)
    (hp : e.pricing = 10) (hpos : 0 < e.solPriceUsd) :
    (handlePaymentSol e storage).lamports =
      some (round (10 / e.solPriceUsd * 1000000000)) ∧
    |((round (10 / e.solPriceUsd * 1000000000) : Int) : Rat) -
        10 / e.solPriceUsd * 1000000000| ≤ 1 / 2 := by
  constructor
  · unfold handlePaymentSol
    simp only [hw, Bool.not_true, Bool.false_eq_true, if_false, hd, hp]
    split_ifs <;> simp [LAMPORTS_PER_SOL]
  · rw [abs_sub_comm]
    exact abs_sub_round (10 / e.solPriceUsd * 1000000000)

/-- A native-SOL run at price 10 USD with a 20 USD/SOL quote. -/
def solPriceEnv : HpEnv :=
  ⟨true, "s", 10, 20, "sig", "u", false, [], LedgerStatus.missing, false⟩

theorem c8_sol_amount_witness :
    (handlePaymentSol solPriceEnv []).lamports =
      some (round ((10 : Rat) / 20 * 1000000000)) ∧
    |((round ((10 : Rat) / 20 * 1000000000) : Int) : Rat) -
        (10 : Rat) / 20 * 1000000000| ≤ 1 / 2 :=
  c8_sol_amount solPriceEnv [] rfl rfl rfl (by norm_num [solPriceEnv])

end WhiskyPay
